import Mathlib

/-!
# Connection setup (`server/public/utils/sql/sql_utils.go`)

A shallow embedding of `SetupConnection` together with the properties of its
retry loop, its error results and the pool configuration it applies.

The Go function talks to three collaborators: the driver factory
(`dbsql.Open`), the opened handle (`PingContext` and the four pool setters)
and the logger.  Their answers are supplied by an environment `Env`; every
call the function makes is appended, in program order, to a trace of `Event`s
carried by the `World`.
-/

namespace SqlUtils

/-! ## Machine integers and durations -/

/-- Two's-complement reduction of an integer into the signed 64-bit range. -/
def wrapInt64 (x : Int) : Int := (x + 2 ^ 63) % 2 ^ 64 - 2 ^ 63

/-- Largest value of a Go `int` / `int64` on the supported 64-bit targets. -/
def maxInt64 : Int := 2 ^ 63 - 1

/-- Smallest value of a Go `int` / `int64` on the supported 64-bit targets. -/
def minInt64 : Int := -(2 ^ 63)

/-- A `time.Duration` is an `int64` count of nanoseconds. -/
abbrev Duration := Int

/-- Go constant `time.Millisecond`, in nanoseconds. -/
def Millisecond : Duration := 1000000

/-- Go constant `time.Second`, in nanoseconds. -/
def Second : Duration := 1000 * Millisecond

/-- Source constant `DBPingTimeout = 10 * time.Second`. -/
def DBPingTimeout : Duration := 10 * Second

/-- Source constant `DBConnRetrySleep = 2 * time.Second`. -/
def DBConnRetrySleep : Duration := 2 * Second

/-- Source constant `replicaLagPrefix`. -/
def replicaLagPrefix : String := "replica-lag"

/-- Go expression `time.Duration(ms) * time.Millisecond`: the conversion of an
`int` to `int64` followed by an `int64` multiplication, which wraps around. -/
def millisToDuration (ms : Int) : Duration := wrapInt64 (wrapInt64 ms * Millisecond)

/-! ## Errors -/

/-- Error values.  `raw` is an error produced by a collaborator (driver,
network); `wrapped` is the result of `errors.Wrap cause msg`. -/
inductive GoError where
  | raw (msg : String)
  | wrapped (cause : GoError) (msg : String)
  deriving DecidableEq, Repr

/-- Library call `errors.Wrap` applied to a non-nil error. -/
def Wrap (err : GoError) (msg : String) : GoError := GoError.wrapped err msg

/-! ## Settings, handle, log fields and events -/

/-- The fields of `model.SqlSettings` read by `SetupConnection`.  In Go they are
pointers which the configuration layer always populates; the embedding holds
the pointed-to values. -/
structure SqlSettings where
  DriverName : String
  MaxIdleConns : Int
  MaxOpenConns : Int
  ConnMaxLifetimeMilliseconds : Int
  ConnMaxIdleTimeMilliseconds : Int
  deriving DecidableEq, Repr

/-- The pool parameters of a handle `*dbsql.DB` of Go's standard library package
`database/sql`: its fields `maxOpen` (0 or less: unlimited), `maxIdleCount`
(here `maxIdle`; 0: the default, negative: no idle connections), `maxLifetime`
and `maxIdleTime`.  The package is not part of the repository; the four setters
below follow its implementation. -/
structure DB where
  maxOpen : Int
  maxIdle : Int
  maxLifetime : Duration
  maxIdleTime : Duration
  deriving DecidableEq, Repr

/-- Standard library constant `defaultMaxIdleConns`. -/
def defaultMaxIdleConns : Int := 2

/-- Standard library method `db.maxIdleConnsLocked`: the effective idle limit. -/
def DB.maxIdleConnsLocked (db : DB) : Int :=
  if db.maxIdle = 0 then defaultMaxIdleConns
  else if db.maxIdle < 0 then 0
  else db.maxIdle

/-- Standard library method `db.SetMaxIdleConns n`: stores `n` when positive
and -1 otherwise, then lowers the idle limit to a positive open limit that it
would exceed. -/
def DB.SetMaxIdleConns (db : DB) (n : Int) : DB :=
  let db := if n > 0 then { db with maxIdle := n } else { db with maxIdle := -1 }
  if db.maxOpen > 0 ∧ db.maxIdleConnsLocked > db.maxOpen then
    { db with maxIdle := db.maxOpen }
  else db

/-- Standard library method `db.SetMaxOpenConns n`: stores `n`, or 0 when `n`
is negative, and when the effective idle limit exceeds the new positive open
limit, calls `SetMaxIdleConns n` itself. -/
def DB.SetMaxOpenConns (db : DB) (n : Int) : DB :=
  let db := { db with maxOpen := n }
  let db := if n < 0 then { db with maxOpen := 0 } else db
  let syncMaxIdle := decide (db.maxOpen > 0) && decide (db.maxIdleConnsLocked > db.maxOpen)
  if syncMaxIdle then db.SetMaxIdleConns n else db

/-- Standard library method `db.SetConnMaxLifetime d`: a negative `d` is stored as 0. -/
def DB.SetConnMaxLifetime (db : DB) (d : Duration) : DB :=
  let d := if d < 0 then 0 else d
  { db with maxLifetime := d }

/-- Standard library method `db.SetConnMaxIdleTime d`: a negative `d` is stored as 0. -/
def DB.SetConnMaxIdleTime (db : DB) (d : Duration) : DB :=
  let d := if d < 0 then 0 else d
  { db with maxIdleTime := d }

/-- Value of a structured log field. -/
inductive FieldValue where
  | str (s : String)
  | int (n : Int)
  | seconds (d : Duration)
  | err (e : GoError)
  deriving DecidableEq, Repr

/-- A structured log field: key and value. -/
structure Field where
  key : String
  value : FieldValue
  deriving DecidableEq, Repr

/-- Field constructor `mlog.String`. -/
def mlogString (key val : String) : Field := ⟨key, FieldValue.str val⟩

/-- Field constructor `mlog.Int`. -/
def mlogInt (key : String) (val : Int) : Field := ⟨key, FieldValue.int val⟩

/-- Field constructor `mlog.Float` applied to `d.Seconds()`; the duration whose
number of seconds is logged is kept as an integer of nanoseconds. -/
def mlogFloatSeconds (key : String) (d : Duration) : Field := ⟨key, FieldValue.seconds d⟩

/-- Field constructor `mlog.Err`. -/
def mlogErr (e : GoError) : Field := ⟨"error", FieldValue.err e⟩

/-- Severity of a log event. -/
inductive Level where
  | info
  | error
  deriving DecidableEq, Repr

/-- One observable call made by `SetupConnection` itself (a call that a library
method makes internally is not an event). -/
inductive Event where
  | sqlOpen (driverName dataSource : String)
  | log (level : Level) (msg : String) (fields : List Field)
  | ping (timeout : Duration) (result : Option GoError)
  | sleep (d : Duration)
  | setMaxOpenConns (n : Int)
  | setMaxIdleConns (n : Int)
  | setConnMaxLifetime (d : Duration)
  | setConnMaxIdleTime (d : Duration)
  deriving DecidableEq, Repr

/-- A logger is the list of fields bound to it by `With`. -/
abbrev Logger := List Field

/-- Method `logger.With`: a logger with further fields bound. -/
def Logger.With (logger : Logger) (fields : List Field) : Logger := logger ++ fields

/-- What the collaborators answer.  `ping i` is the result of the `(i+1)`-th
call of `db.PingContext` (`none` is a nil error). -/
structure Env where
  sqlOpen : String → String → Except GoError DB
  SanitizeDataSource : String → String → String × Option GoError
  ping : Nat → Option GoError

/-- Program state: the calls made so far and the number of pings among them. -/
structure World where
  trace : List Event
  pings : Nat
  deriving DecidableEq, Repr

/-- Record one call at the end of the trace. -/
def World.emit (w : World) (e : Event) : World := { w with trace := w.trace ++ [e] }

/-- Method `logger.Info`. -/
def Logger.Info (logger : Logger) (w : World) (msg : String) (fields : List Field) : World :=
  w.emit (Event.log Level.info msg (logger ++ fields))

/-- Method `logger.Error`. -/
def Logger.Error (logger : Logger) (w : World) (msg : String) (fields : List Field) : World :=
  w.emit (Event.log Level.error msg (logger ++ fields))

/-- Method `db.PingContext` under a context with the given timeout: consults the
environment, records the call and its result. -/
def PingContext (env : Env) (w : World) (timeout : Duration) : Option GoError × World :=
  let r := env.ping w.pings
  (r, { trace := w.trace ++ [Event.ping timeout r], pings := w.pings + 1 })

/-- Library call `time.Sleep`. -/
def Sleep (w : World) (d : Duration) : World := w.emit (Event.sleep d)

/-- Library call `strings.HasPrefix`:
`len(s) >= len(prefix) && s[:len(prefix)] == prefix`. -/
def HasPrefix (s pre : String) : Bool :=
  decide (pre.data.length ≤ s.data.length) && (s.data.take pre.data.length == pre.data)

/-! ## The retry loop and `SetupConnection` -/

/-- How the `for` loop ends: it falls through to the pool configuration (by
`break` or because its condition is false), the function returns an error from
inside it, or the fuel of the embedding is used up. -/
inductive LoopExit where
  | exited (w : World)
  | returned (err : GoError) (w : World)
  | outOfFuel
  deriving DecidableEq, Repr

/-- The loop `for attempt := 1; attempt <= attempts; attempt++ { ... }` of
`SetupConnection`, entered at the condition check with the current value of
`attempt`.  Each iteration consumes one unit of fuel.  `attempt + 1` is only
computed when `attempt < attempts`, so the increment never leaves the `int`
range.  The per-attempt context contributes the timeout handed to the ping; its
deferred `cancel` releases resources only and is not observed. -/
def pingLoop (env : Env) (logger : Logger) (attempts : Int) :
    Nat → Int → World → LoopExit
  | fuel, attempt, w =>
    if attempt ≤ attempts then
      match fuel with
      | 0 => LoopExit.outOfFuel
      | fuel + 1 =>
        let w := if attempt > 1 then
            logger.Info w "Pinging SQL" [mlogInt "attempt" attempt]
          else w
        let (err, w) := PingContext env w DBPingTimeout
        match err with
        | some err =>
          if attempt = attempts then
            LoopExit.returned err w
          else
            let w := logger.Error w "Failed to ping DB"
              [mlogFloatSeconds "retrying in seconds" DBConnRetrySleep, mlogErr err]
            let w := Sleep w DBConnRetrySleep
            pingLoop env logger attempts fuel (attempt + 1) w
        | none => LoopExit.exited w
    else LoopExit.exited w

/-- Result of a run: the returned pair `(*dbsql.DB, error)` and the final state. -/
structure Outcome where
  db : Option DB
  err : Option GoError
  world : World
  deriving DecidableEq, Repr

/-- The function `SetupConnection`.  `none` means the embedding ran out of fuel
(`run_shape` shows that this does not happen). -/
def SetupConnection (env : Env) (connType dataSource : String) (settings : SqlSettings)
    (attempts : Int) : Option Outcome :=
  let w : World := { trace := [], pings := 0 }
  let w := w.emit (Event.sqlOpen settings.DriverName dataSource)
  match env.sqlOpen settings.DriverName dataSource with
  | Except.error err => some ⟨none, some (Wrap err "failed to open SQL connection"), w⟩
  | Except.ok db =>
    let sanitized := (env.SanitizeDataSource settings.DriverName dataSource).1
    let logger : Logger := Logger.With []
      [mlogString "database" connType, mlogString "dataSource" sanitized]
    match pingLoop env logger attempts attempts.toNat 1 w with
    | LoopExit.outOfFuel => none
    | LoopExit.returned err w => some ⟨none, some err, w⟩
    | LoopExit.exited w =>
      let (db, w) :=
        if HasPrefix connType replicaLagPrefix then
          let db := db.SetMaxOpenConns 1
          let w := w.emit (Event.setMaxOpenConns 1)
          let db := db.SetMaxIdleConns 1
          let w := w.emit (Event.setMaxIdleConns 1)
          (db, w)
        else
          let db := db.SetMaxIdleConns settings.MaxIdleConns
          let w := w.emit (Event.setMaxIdleConns settings.MaxIdleConns)
          let db := db.SetMaxOpenConns settings.MaxOpenConns
          let w := w.emit (Event.setMaxOpenConns settings.MaxOpenConns)
          (db, w)
      let lifetime := millisToDuration settings.ConnMaxLifetimeMilliseconds
      let db := db.SetConnMaxLifetime lifetime
      let w := w.emit (Event.setConnMaxLifetime lifetime)
      let idleTime := millisToDuration settings.ConnMaxIdleTimeMilliseconds
      let db := db.SetConnMaxIdleTime idleTime
      let w := w.emit (Event.setConnMaxIdleTime idleTime)
      some ⟨some db, none, w⟩

/-! ## Observations on traces -/

/-- Is the event a ping. -/
def Event.isPing : Event → Bool
  | Event.ping _ _ => true
  | _ => false

/-- Is the event a sleep. -/
def Event.isSleep : Event → Bool
  | Event.sleep _ => true
  | _ => false

/-- Is the event a log emission, of any level. -/
def Event.isLog : Event → Bool
  | Event.log _ _ _ => true
  | _ => false

/-- Is the event an info-level log emission. -/
def Event.isInfo : Event → Bool
  | Event.log Level.info _ _ => true
  | _ => false

/-- Is the event an error-level log emission. -/
def Event.isError : Event → Bool
  | Event.log Level.error _ _ => true
  | _ => false

/-- Is the event the info-level event with message "Pinging SQL". -/
def Event.isPingingSQL : Event → Bool
  | Event.log Level.info msg _ => msg == "Pinging SQL"
  | _ => false

/-- Is the event the error-level event with message "Failed to ping DB". -/
def Event.isFailedToPing : Event → Bool
  | Event.log Level.error msg _ => msg == "Failed to ping DB"
  | _ => false

/-- Is the event a call of one of the four pool setters. -/
def Event.isSetter : Event → Bool
  | Event.setMaxOpenConns _ => true
  | Event.setMaxIdleConns _ => true
  | Event.setConnMaxLifetime _ => true
  | Event.setConnMaxIdleTime _ => true
  | _ => false

/-- Is the event a call of `SetMaxOpenConns`. -/
def Event.isSetMaxOpen : Event → Bool
  | Event.setMaxOpenConns _ => true
  | _ => false

/-- Is the event a call of `SetMaxIdleConns`. -/
def Event.isSetMaxIdle : Event → Bool
  | Event.setMaxIdleConns _ => true
  | _ => false

/-- Is the event a call of `SetConnMaxLifetime`. -/
def Event.isSetLifetime : Event → Bool
  | Event.setConnMaxLifetime _ => true
  | _ => false

/-- Is the event a call of `SetConnMaxIdleTime`. -/
def Event.isSetIdleTime : Event → Bool
  | Event.setConnMaxIdleTime _ => true
  | _ => false

/-- Is the event a sleep of another duration than two seconds. -/
def Event.isOddSleep : Event → Bool
  | Event.sleep d => d != 2000000000
  | _ => false

/-- Number of events of a trace satisfying a test. -/
def count (p : Event → Bool) (t : List Event) : Nat := t.countP p

/-- A concrete environment: the driver factory succeeds with a fresh handle and
the first `fails` pings fail. -/
def sampleEnv (fails : Nat) : Env where
  sqlOpen := fun _ _ => Except.ok ⟨0, 0, 0, 0⟩
  SanitizeDataSource := fun _ ds => (ds, none)
  ping := fun i => if i < fails then some (GoError.raw "connection refused") else none

/-- A concrete environment whose driver factory fails. -/
def brokenEnv : Env where
  sqlOpen := fun _ _ => Except.error (GoError.raw "unknown driver")
  SanitizeDataSource := fun _ ds => (ds, none)
  ping := fun _ => none

/-- Concrete settings requesting 50 open and 50 idle connections. -/
def sampleSettings : SqlSettings where
  DriverName := "postgres"
  MaxIdleConns := 50
  MaxOpenConns := 50
  ConnMaxLifetimeMilliseconds := 3600000
  ConnMaxIdleTimeMilliseconds := 300000


/-- Concrete settings whose lifetime in milliseconds does not fit, once
converted to nanoseconds, into 64 bits. -/
def longLivedSettings : SqlSettings where
  DriverName := "postgres"
  MaxIdleConns := 50
  MaxOpenConns := 50
  ConnMaxLifetimeMilliseconds := 9223372036855
  ConnMaxIdleTimeMilliseconds := 300000

/-- Concrete settings requesting more idle connections (50) than open ones (10). -/
def unevenSettings : SqlSettings where
  DriverName := "postgres"
  MaxIdleConns := 50
  MaxOpenConns := 10
  ConnMaxLifetimeMilliseconds := 3600000
  ConnMaxIdleTimeMilliseconds := 300000

/-- Concrete settings with negative values: -1 idle, -5 open, -1 ms lifetime. -/
def negativeSettings : SqlSettings where
  DriverName := "postgres"
  MaxIdleConns := -1
  MaxOpenConns := -5
  ConnMaxLifetimeMilliseconds := -1
  ConnMaxIdleTimeMilliseconds := 300000

/-! ## Events of one iteration -/

/-- Events of the optional "Pinging SQL" announcement of an iteration. -/
def announceEvents (logger : Logger) (attempt : Int) : List Event :=
  if attempt > 1 then
    [Event.log Level.info "Pinging SQL" (logger ++ [mlogInt "attempt" attempt])]
  else []

/-- Events of a failed, non-final iteration: announcement, ping, error log, sleep. -/
def retryEvents (logger : Logger) (attempt : Int) (err : GoError) : List Event :=
  announceEvents logger attempt ++
    [Event.ping DBPingTimeout (some err),
     Event.log Level.error "Failed to ping DB"
       (logger ++ [mlogFloatSeconds "retrying in seconds" DBConnRetrySleep, mlogErr err]),
     Event.sleep DBConnRetrySleep]

/-- Events of the iteration that ends the loop: announcement and ping. -/
def lastEvents (logger : Logger) (attempt : Int) (r : Option GoError) : List Event :=
  announceEvents logger attempt ++ [Event.ping DBPingTimeout r]

/-- Extend a state by the events of one iteration, which contain one ping. -/
def World.after (w : World) (es : List Event) : World :=
  { trace := w.trace ++ es, pings := w.pings + 1 }

/-! ## Auxiliary descriptions of runs -/

/-- Summary of the events of `k` failed, non-final iterations starting at
`attempt`: how many events of each sort they contain. -/
structure Retries (attempt : Int) (k : Nat) (t : List Event) : Prop where
  pings : count Event.isPing t = k
  infos : count Event.isInfo t = if 1 < attempt then k else k - 1
  pinging : count Event.isPingingSQL t = if 1 < attempt then k else k - 1
  errors : count Event.isError t = k
  failed : count Event.isFailedToPing t = k
  sleeps : count Event.isSleep t = k
  oddSleeps : count Event.isOddSleep t = 0
  setters : count Event.isSetter t = 0

/-- The logger after `With`: role and sanitized data source bound. -/
def boundLogger (env : Env) (connType dataSource : String) (settings : SqlSettings) : Logger :=
  [mlogString "database" connType,
   mlogString "dataSource" (env.SanitizeDataSource settings.DriverName dataSource).1]

/-- The handle after the pool configuration at the end of `SetupConnection`. -/
def configuredDB (connType : String) (settings : SqlSettings) (db : DB) : DB :=
  ((if HasPrefix connType replicaLagPrefix then
      (db.SetMaxOpenConns 1).SetMaxIdleConns 1
    else
      (db.SetMaxIdleConns settings.MaxIdleConns).SetMaxOpenConns settings.MaxOpenConns
    ).SetConnMaxLifetime (millisToDuration settings.ConnMaxLifetimeMilliseconds)
   ).SetConnMaxIdleTime (millisToDuration settings.ConnMaxIdleTimeMilliseconds)

/-- The loop is left towards the pool configuration: either there is no
attempt to make (`attempts ≤ 0`), or some ping among the first `attempts` ones
succeeds after all earlier ones have failed. -/
def LoopPasses (env : Env) (attempts : Int) : Prop :=
  attempts ≤ 0 ∨
    ∃ k : Nat, (k : Int) < attempts ∧ (∀ i, i < k → (env.ping i).isSome = true) ∧
      env.ping k = none

/-- The setter calls of the pool configuration, in program order. -/
def configEvents (connType : String) (settings : SqlSettings) : List Event :=
  (if HasPrefix connType replicaLagPrefix then
      [Event.setMaxOpenConns 1, Event.setMaxIdleConns 1]
    else
      [Event.setMaxIdleConns settings.MaxIdleConns, Event.setMaxOpenConns settings.MaxOpenConns])
  ++ [Event.setConnMaxLifetime (millisToDuration settings.ConnMaxLifetimeMilliseconds),
      Event.setConnMaxIdleTime (millisToDuration settings.ConnMaxIdleTimeMilliseconds)]

/-- The state in which the loop is entered. -/
def openedWorld (dataSource : String) (settings : SqlSettings) : World :=
  { trace := [Event.sqlOpen settings.DriverName dataSource], pings := 0 }

/-! ## Stepping the loop -/

theorem pingLoop_skip (env : Env) (logger : Logger) (attempts : Int) (fuel : Nat)
    (attempt : Int) (w : World) (h : attempts < attempt) :
    pingLoop env logger attempts fuel attempt w = LoopExit.exited w := by
  cases fuel <;> simp [pingLoop, Int.not_le.mpr h]

theorem pingLoop_success (env : Env) (logger : Logger) (attempts : Int) (fuel : Nat)
    (attempt : Int) (w : World) (h : attempt ≤ attempts) (hp : env.ping w.pings = none) :
    pingLoop env logger attempts (fuel + 1) attempt w
      = LoopExit.exited (w.after (lastEvents logger attempt none)) := by
  by_cases h1 : attempt > 1
  · simp [pingLoop, h, h1, PingContext, Logger.Info, World.emit, hp, World.after,
      lastEvents, announceEvents]
  · simp [pingLoop, h, h1, PingContext, hp, World.after, lastEvents, announceEvents]

theorem pingLoop_final_failure (env : Env) (logger : Logger) (attempts : Int) (fuel : Nat)
    (w : World) (err : GoError) (hp : env.ping w.pings = some err) :
    pingLoop env logger attempts (fuel + 1) attempts w
      = LoopExit.returned err (w.after (lastEvents logger attempts (some err))) := by
  by_cases h1 : attempts > 1
  · simp [pingLoop, h1, PingContext, Logger.Info, World.emit, hp, World.after,
      lastEvents, announceEvents]
  · simp [pingLoop, h1, PingContext, hp, World.after, lastEvents, announceEvents]

theorem pingLoop_retry (env : Env) (logger : Logger) (attempts : Int) (fuel : Nat)
    (attempt : Int) (w : World) (err : GoError) (h : attempt < attempts)
    (hp : env.ping w.pings = some err) :
    pingLoop env logger attempts (fuel + 1) attempt w
      = pingLoop env logger attempts fuel (attempt + 1)
          (w.after (retryEvents logger attempt err)) := by
  have hle : attempt ≤ attempts := Int.le_of_lt h
  have hne : attempt ≠ attempts := Int.ne_of_lt h
  by_cases h1 : attempt > 1
  · simp [pingLoop, hle, hne, h1, PingContext, Logger.Info, Logger.Error, Sleep, World.emit,
      hp, World.after, retryEvents, announceEvents]
  · simp [pingLoop, hle, hne, h1, PingContext, Logger.Error, Sleep, World.emit, hp,
      World.after, retryEvents, announceEvents]


/-! ## Prefix test -/

theorem HasPrefix_iff (s pre : String) :
    HasPrefix s pre = true ↔ ∃ rest : String, s = pre ++ rest := by
  unfold HasPrefix
  constructor
  · intro h
    simp only [Bool.and_eq_true, decide_eq_true_eq, beq_iff_eq] at h
    refine ⟨⟨s.data.drop pre.data.length⟩, ?_⟩
    apply String.ext
    rw [String.data_append]
    conv_lhs => rw [← List.take_append_drop pre.data.length s.data]
    rw [h.2]
  · rintro ⟨rest, rfl⟩
    simp [String.data_append]

/-! ## Counting events -/

theorem count_append (p : Event → Bool) (s t : List Event) :
    count p (s ++ t) = count p s + count p t := by
  simp [count, List.countP_append]

theorem count_nil (p : Event → Bool) : count p [] = 0 := rfl

theorem count_cons (p : Event → Bool) (e : Event) (t : List Event) :
    count p (e :: t) = count p t + if p e = true then 1 else 0 := by
  simp [count, List.countP_cons]

theorem retries_zero (attempt : Int) : Retries attempt 0 [] := by
  constructor <;> simp [count_nil]

theorem retries_one (logger : Logger) (attempt : Int) (err : GoError) :
    Retries attempt 1 (retryEvents logger attempt err) := by
  by_cases h1 : 1 < attempt <;> constructor <;>
    simp [retryEvents, announceEvents, h1, count_cons, count_nil, Event.isPing, Event.isInfo,
      Event.isPingingSQL, Event.isError, Event.isFailedToPing, Event.isSleep, Event.isOddSleep,
      Event.isSetter, DBConnRetrySleep, Second, Millisecond]

theorem retries_cons (logger : Logger) (attempt : Int) (err : GoError) (k : Nat)
    (t : List Event) (h1 : 1 ≤ attempt) (h : Retries (attempt + 1) k t) :
    Retries attempt (k + 1) (retryEvents logger attempt err ++ t) := by
  have hs : (1 : Int) < attempt + 1 := by omega
  have r := retries_one logger attempt err
  obtain ⟨a1, a2, a3, a4, a5, a6, a7, a8⟩ := h
  obtain ⟨b1, b2, b3, b4, b5, b6, b7, b8⟩ := r
  simp only [hs, if_true] at a2 a3
  constructor <;> rw [count_append] <;> simp only [*] <;>
    first | omega | (split <;> omega)


/-! ## Unrolling the loop -/

/-- If the next `k` pings fail and at least `k` further attempts remain after
them, the loop makes `k` retries and continues at attempt `attempt + k`. -/
theorem pingLoop_retries (env : Env) (logger : Logger) (attempts : Int) :
    ∀ (k fuel : Nat) (attempt : Int) (w : World), 1 ≤ attempt → attempt + k ≤ attempts →
      (∀ i, i < k → (env.ping (w.pings + i)).isSome = true) →
      ∃ t, Retries attempt k t ∧
        pingLoop env logger attempts (fuel + k) attempt w
          = pingLoop env logger attempts fuel (attempt + k)
              { trace := w.trace ++ t, pings := w.pings + k } := by
  intro k
  induction k with
  | zero =>
    intro fuel attempt w _ _ _
    exact ⟨[], retries_zero attempt, by simp⟩
  | succ k ih =>
    intro fuel attempt w h1 hle hp
    have h0 := hp 0 (Nat.succ_pos k)
    rw [Nat.add_zero, Option.isSome_iff_exists] at h0
    obtain ⟨err, herr⟩ := h0
    have hlt : attempt < attempts := by omega
    have hstep := pingLoop_retry env logger attempts (fuel + k) attempt w err hlt herr
    obtain ⟨t, ht, hrun⟩ := ih fuel (attempt + 1)
      (w.after (retryEvents logger attempt err)) (by omega) (by push_cast at hle; omega)
      (by
        intro i hi
        have := hp (i + 1) (by omega)
        simpa [World.after, Nat.add_assoc, Nat.add_comm 1 i] using this)
    refine ⟨retryEvents logger attempt err ++ t, retries_cons logger attempt err k t h1 ht, ?_⟩
    rw [← Nat.add_assoc, hstep, hrun]
    simp only [World.after, List.append_assoc]
    congr 1
    · push_cast; omega
    · congr 1; omega

/-- Whatever the pings answer, a loop entered with an attempt left and enough
fuel ends right after a ping: by `break` when that ping succeeded, by `return`
when it failed.  No pool setter is called inside the loop. -/
theorem pingLoop_ends (env : Env) (logger : Logger) (attempts : Int) :
    ∀ (fuel : Nat) (attempt : Int) (w : World), attempt ≤ attempts →
      attempts - attempt < fuel →
      ∃ (t : List Event) (r : Option GoError) (n : Nat),
        count Event.isSetter t = 0 ∧
        pingLoop env logger attempts fuel attempt w
          = match r with
            | none => LoopExit.exited
                { trace := w.trace ++ t ++ [Event.ping DBPingTimeout none], pings := n }
            | some err => LoopExit.returned err
                { trace := w.trace ++ t ++ [Event.ping DBPingTimeout (some err)], pings := n } := by
  intro fuel
  induction fuel with
  | zero => intro attempt w h hf; omega
  | succ fuel ih =>
    intro attempt w h hf
    have hann : count Event.isSetter (announceEvents logger attempt) = 0 := by
      unfold announceEvents
      split <;> simp [count_cons, count_nil, Event.isSetter]
    cases hp : env.ping w.pings with
    | none =>
      refine ⟨announceEvents logger attempt, none, w.pings + 1, hann, ?_⟩
      rw [pingLoop_success env logger attempts fuel attempt w h hp]
      simp [World.after, lastEvents]
    | some err =>
      by_cases hlast : attempt = attempts
      · subst hlast
        refine ⟨announceEvents logger attempt, some err, w.pings + 1, hann, ?_⟩
        rw [pingLoop_final_failure env logger attempt fuel w err hp]
        simp [World.after, lastEvents]
      · have hlt : attempt < attempts := by omega
        rw [pingLoop_retry env logger attempts fuel attempt w err hlt hp]
        obtain ⟨t, r, n, ht, hrun⟩ := ih (attempt + 1)
          (w.after (retryEvents logger attempt err)) (by omega) (by omega)
        refine ⟨retryEvents logger attempt err ++ t, r, n, ?_, ?_⟩
        · rw [count_append, ht, (retries_one logger attempt err).setters]
        · rw [hrun]
          simp [World.after, List.append_assoc]


/-! ## Whole runs -/

theorem SetupConnection_open_error (env : Env) (connType dataSource : String)
    (settings : SqlSettings) (attempts : Int) (e : GoError)
    (ho : env.sqlOpen settings.DriverName dataSource = Except.error e) :
    SetupConnection env connType dataSource settings attempts
      = some ⟨none, some (Wrap e "failed to open SQL connection"),
          openedWorld dataSource settings⟩ := by
  simp [SetupConnection, ho, openedWorld, World.emit]

theorem SetupConnection_opened (env : Env) (connType dataSource : String)
    (settings : SqlSettings) (attempts : Int) (db : DB)
    (ho : env.sqlOpen settings.DriverName dataSource = Except.ok db) :
    SetupConnection env connType dataSource settings attempts
      = match pingLoop env (boundLogger env connType dataSource settings) attempts
            attempts.toNat 1 (openedWorld dataSource settings) with
        | LoopExit.outOfFuel => none
        | LoopExit.returned err w => some ⟨none, some err, w⟩
        | LoopExit.exited w =>
          some ⟨some (configuredDB connType settings db), none,
            { trace := w.trace ++ configEvents connType settings, pings := w.pings }⟩ := by
  simp only [SetupConnection, ho, openedWorld, World.emit, boundLogger, Logger.With,
    List.nil_append]
  split
  · rfl
  · rfl
  · by_cases hp : HasPrefix connType replicaLagPrefix = true
    · simp [hp, configuredDB, configEvents]
    · simp [hp, configuredDB, configEvents]


/-- A run whose first `k` pings fail and whose next ping succeeds, with
`k < attempts`: the exact result. -/
theorem run_success (env : Env) (connType dataSource : String) (settings : SqlSettings)
    (attempts : Int) (k : Nat) (db : DB) (hk : (k : Int) < attempts)
    (ho : env.sqlOpen settings.DriverName dataSource = Except.ok db)
    (hf : ∀ i, i < k → (env.ping i).isSome = true) (hs : env.ping k = none) :
    ∃ t, Retries 1 k t ∧
      SetupConnection env connType dataSource settings attempts
        = some ⟨some (configuredDB connType settings db), none,
            { trace := [Event.sqlOpen settings.DriverName dataSource] ++ t
                ++ lastEvents (boundLogger env connType dataSource settings) (1 + k) none
                ++ configEvents connType settings,
              pings := k + 1 }⟩ := by
  obtain ⟨f, hfuel⟩ : ∃ f, attempts.toNat = (f + 1) + k := ⟨attempts.toNat - (k + 1), by omega⟩
  obtain ⟨t, ht, hrun⟩ := pingLoop_retries env (boundLogger env connType dataSource settings)
    attempts k (f + 1) 1 (openedWorld dataSource settings) (le_refl 1) (by omega)
    (by intro i hi; simpa [openedWorld] using hf i hi)
  refine ⟨t, ht, ?_⟩
  rw [SetupConnection_opened env connType dataSource settings attempts db ho, hfuel, hrun,
    pingLoop_success env _ attempts f (1 + k) _ (by omega) (by simpa [openedWorld] using hs)]
  simp [World.after, openedWorld]

/-- A run in which every ping fails, with `attempts ≥ 1`: the exact result. -/
theorem run_failure (env : Env) (connType dataSource : String) (settings : SqlSettings)
    (attempts : Int) (db : DB) (ha : 1 ≤ attempts)
    (ho : env.sqlOpen settings.DriverName dataSource = Except.ok db)
    (hf : ∀ i, i < attempts.toNat → (env.ping i).isSome = true) :
    ∃ t e, Retries 1 (attempts.toNat - 1) t ∧ env.ping (attempts.toNat - 1) = some e ∧
      SetupConnection env connType dataSource settings attempts
        = some ⟨none, some e,
            { trace := [Event.sqlOpen settings.DriverName dataSource] ++ t
                ++ lastEvents (boundLogger env connType dataSource settings) attempts (some e),
              pings := attempts.toNat }⟩ := by
  obtain ⟨k, hfuel⟩ : ∃ k, attempts.toNat = (0 + 1) + k := ⟨attempts.toNat - 1, by omega⟩
  have hk : attempts.toNat - 1 = k := by omega
  have hat : (1 : Int) + k = attempts := by omega
  obtain ⟨t, ht, hrun⟩ := pingLoop_retries env (boundLogger env connType dataSource settings)
    attempts k (0 + 1) 1 (openedWorld dataSource settings) (le_refl 1) (by omega)
    (by intro i hi; simpa [openedWorld] using hf i (by omega))
  have hlast := hf k (by omega)
  rw [Option.isSome_iff_exists] at hlast
  obtain ⟨e, he⟩ := hlast
  refine ⟨t, e, hk ▸ ht, hk ▸ he, ?_⟩
  rw [SetupConnection_opened env connType dataSource settings attempts db ho, hfuel, hrun, hat,
    pingLoop_final_failure env _ attempts 0 _ e (by simpa [openedWorld] using he)]
  simp [World.after, openedWorld]
  omega

/-- Every run returns, and its result has one of two forms: an error with no
handle and no setter call, or a configured handle with no error whose setter
calls are the last events of the run. -/
theorem run_shape (env : Env) (connType dataSource : String) (settings : SqlSettings)
    (attempts : Int) :
    ∃ out, SetupConnection env connType dataSource settings attempts = some out ∧
      ((∃ e, out.db = none ∧ out.err = some e ∧ count Event.isSetter out.world.trace = 0) ∨
       (∃ db pre, env.sqlOpen settings.DriverName dataSource = Except.ok db ∧
          out.db = some (configuredDB connType settings db) ∧ out.err = none ∧
          out.world.trace = pre ++ configEvents connType settings ∧
          count Event.isSetter pre = 0 ∧
          (1 ≤ attempts → ∃ pre0, pre = pre0 ++ [Event.ping DBPingTimeout none]))) := by
  cases ho : env.sqlOpen settings.DriverName dataSource with
  | error e =>
    refine ⟨_, SetupConnection_open_error env connType dataSource settings attempts e ho, ?_⟩
    exact Or.inl ⟨_, rfl, rfl, by simp [openedWorld, count_cons, count_nil, Event.isSetter]⟩
  | ok db =>
    rw [SetupConnection_opened env connType dataSource settings attempts db ho]
    by_cases ha : 1 ≤ attempts
    · obtain ⟨t, r, n, ht, hrun⟩ := pingLoop_ends env
        (boundLogger env connType dataSource settings) attempts attempts.toNat 1
        (openedWorld dataSource settings) ha (by omega)
      rw [hrun]
      cases r with
      | none =>
        refine ⟨_, rfl, Or.inr ⟨db, _, rfl, rfl, rfl, rfl, ?_, fun _ => ⟨_, rfl⟩⟩⟩
        simp [openedWorld, count_append, count_cons, count_nil, Event.isSetter, ht]
      | some e =>
        refine ⟨_, rfl, Or.inl ⟨e, rfl, rfl, ?_⟩⟩
        simp [openedWorld, count_append, count_cons, count_nil, Event.isSetter, ht]
    · rw [pingLoop_skip env _ attempts _ 1 _ (by omega)]
      refine ⟨_, rfl, Or.inr ⟨db, _, rfl, rfl, rfl, rfl, ?_, fun h => absurd h ha⟩⟩
      simp [openedWorld, count_cons, count_nil, Event.isSetter]


theorem lastEvents_counts (logger : Logger) (attempt : Int) (r : Option GoError) :
    count Event.isPing (lastEvents logger attempt r) = 1 ∧
    count Event.isInfo (lastEvents logger attempt r) = (if 1 < attempt then 1 else 0) ∧
    count Event.isPingingSQL (lastEvents logger attempt r) = (if 1 < attempt then 1 else 0) ∧
    count Event.isError (lastEvents logger attempt r) = 0 ∧
    count Event.isFailedToPing (lastEvents logger attempt r) = 0 ∧
    count Event.isSleep (lastEvents logger attempt r) = 0 ∧
    count Event.isOddSleep (lastEvents logger attempt r) = 0 ∧
    count Event.isSetter (lastEvents logger attempt r) = 0 := by
  by_cases h1 : 1 < attempt <;>
    simp [lastEvents, announceEvents, h1, count_cons, count_nil, Event.isPing, Event.isInfo,
      Event.isPingingSQL, Event.isError, Event.isFailedToPing, Event.isSleep, Event.isOddSleep,
      Event.isSetter]

theorem configEvents_counts (connType : String) (settings : SqlSettings) :
    count Event.isPing (configEvents connType settings) = 0 ∧
    count Event.isInfo (configEvents connType settings) = 0 ∧
    count Event.isPingingSQL (configEvents connType settings) = 0 ∧
    count Event.isError (configEvents connType settings) = 0 ∧
    count Event.isFailedToPing (configEvents connType settings) = 0 ∧
    count Event.isSleep (configEvents connType settings) = 0 ∧
    count Event.isOddSleep (configEvents connType settings) = 0 ∧
    count Event.isLog (configEvents connType settings) = 0 := by
  by_cases hp : HasPrefix connType replicaLagPrefix = true <;>
    simp [configEvents, hp, count_cons, count_nil, Event.isPing, Event.isInfo,
      Event.isPingingSQL, Event.isError, Event.isFailedToPing, Event.isSleep, Event.isOddSleep,
      Event.isLog]

theorem configEvents_setters (connType : String) (settings : SqlSettings) :
    (configEvents connType settings).length = 4 ∧
    count Event.isSetter (configEvents connType settings) = 4 ∧
    count Event.isSetMaxOpen (configEvents connType settings) = 1 ∧
    count Event.isSetMaxIdle (configEvents connType settings) = 1 ∧
    count Event.isSetLifetime (configEvents connType settings) = 1 ∧
    count Event.isSetIdleTime (configEvents connType settings) = 1 := by
  by_cases hp : HasPrefix connType replicaLagPrefix = true <;>
    simp [configEvents, hp, count_cons, count_nil, Event.isSetter, Event.isSetMaxOpen,
      Event.isSetMaxIdle, Event.isSetLifetime, Event.isSetIdleTime]

/-! ## Duration arithmetic -/

theorem wrapInt64_of_fits (x : Int) (h1 : minInt64 ≤ x) (h2 : x ≤ maxInt64) :
    wrapInt64 x = x := by
  unfold wrapInt64
  unfold minInt64 at h1
  unfold maxInt64 at h2
  norm_num at h1 h2 ⊢
  omega

theorem millisToDuration_of_int (ms : Int) (h1 : minInt64 ≤ ms) (h2 : ms ≤ maxInt64) :
    millisToDuration ms = wrapInt64 (ms * 1000000) := by
  unfold millisToDuration
  rw [wrapInt64_of_fits ms h1 h2]
  rfl

theorem millisToDuration_exact (ms : Int) (h1 : -9223372036854 ≤ ms) (h2 : ms ≤ 9223372036854) :
    millisToDuration ms = ms * 1000000 := by
  rw [millisToDuration_of_int ms (by unfold minInt64; norm_num; omega)
    (by unfold maxInt64; norm_num; omega)]
  exact wrapInt64_of_fits _ (by unfold minInt64; norm_num; omega)
    (by unfold maxInt64; norm_num; omega)

/-! ## Successful runs -/

theorem run_configured (env : Env) (connType dataSource : String) (settings : SqlSettings)
    (attempts : Int) (db : DB)
    (ho : env.sqlOpen settings.DriverName dataSource = Except.ok db)
    (hp : LoopPasses env attempts) :
    ∃ pre n, count Event.isSetter pre = 0 ∧
      SetupConnection env connType dataSource settings attempts
        = some ⟨some (configuredDB connType settings db), none,
            { trace := pre ++ configEvents connType settings, pings := n }⟩ := by
  rcases hp with ha | ⟨k, hk, hf, hs⟩
  · refine ⟨[Event.sqlOpen settings.DriverName dataSource], 0, ?_, ?_⟩
    · simp [count_cons, count_nil, Event.isSetter]
    · rw [SetupConnection_opened env connType dataSource settings attempts db ho,
        pingLoop_skip env _ attempts _ 1 _ (by omega)]
      rfl
  · obtain ⟨t, ht, hrun⟩ :=
      run_success env connType dataSource settings attempts k db hk ho hf hs
    refine ⟨_, _, ?_, hrun⟩
    simp [count_append, count_cons, count_nil, Event.isSetter, ht.setters,
      (lastEvents_counts (boundLogger env connType dataSource settings) (1 + k) none).2.2.2.2.2.2.2]

/-- A run returns without error exactly when the open step succeeds and the
loop is left towards the pool configuration. -/
theorem run_succeeds_iff (env : Env) (connType dataSource : String) (settings : SqlSettings)
    (attempts : Int) :
    (∃ out, SetupConnection env connType dataSource settings attempts = some out ∧
        out.err = none) ↔
      ((∃ db, env.sqlOpen settings.DriverName dataSource = Except.ok db) ∧
        LoopPasses env attempts) := by
  constructor
  · rintro ⟨out, hrun, herr⟩
    cases ho : env.sqlOpen settings.DriverName dataSource with
    | error e =>
      rw [SetupConnection_open_error env connType dataSource settings attempts e ho] at hrun
      cases hrun
      cases herr
    | ok db =>
      refine ⟨⟨db, rfl⟩, ?_⟩
      by_cases ha : attempts ≤ 0
      · exact Or.inl ha
      · by_cases hall : ∀ i, i < attempts.toNat → (env.ping i).isSome = true
        · obtain ⟨t, e, _, _, hfail⟩ := run_failure env connType dataSource settings attempts
            db (by omega) ho hall
          rw [hfail] at hrun
          cases hrun
          cases herr
        · have hex : ∃ i, i < attempts.toNat ∧ env.ping i = none := by
            by_contra hne
            apply hall
            intro i hi
            cases hpi : env.ping i with
            | none => exact absurd ⟨i, hi, hpi⟩ hne
            | some e => rfl
          classical
          refine Or.inr ⟨Nat.find hex, ?_, ?_, (Nat.find_spec hex).2⟩
          · have := (Nat.find_spec hex).1
            omega
          · intro i hi
            have hmin := Nat.find_min hex hi
            cases hpi : env.ping i with
            | none => exact absurd ⟨by have := (Nat.find_spec hex).1; omega, hpi⟩ hmin
            | some e => rfl
  · rintro ⟨⟨db, ho⟩, hp⟩
    obtain ⟨pre, n, _, hrun⟩ := run_configured env connType dataSource settings attempts db ho hp
    exact ⟨_, hrun, rfl⟩

/-! ## The configured handle -/

theorem SetMaxIdleConns_fields (db : DB) (n : Int) :
    (db.SetMaxIdleConns n).maxOpen = db.maxOpen ∧
    (db.SetMaxIdleConns n).maxIdle
      = (if 0 < n then (if 0 < db.maxOpen ∧ db.maxOpen < n then db.maxOpen else n) else -1) := by
  obtain ⟨o, i, l, t⟩ := db
  by_cases hn : 0 < n
  · have h0 : n ≠ 0 := by omega
    have h1 : ¬ n < 0 := by omega
    by_cases hc : 0 < o ∧ o < n
    · simp [DB.SetMaxIdleConns, DB.maxIdleConnsLocked, hn, hc, h0, h1]
    · simp [DB.SetMaxIdleConns, DB.maxIdleConnsLocked, hn, hc, h0, h1]
  · have hc : ¬ (0 < o ∧ (0 : Int) > o) := by omega
    simp [DB.SetMaxIdleConns, DB.maxIdleConnsLocked, hn, hc]

theorem SetMaxOpenConns_fields (db : DB) (n : Int) :
    (db.SetMaxOpenConns n).maxOpen = (if n < 0 then 0 else n) ∧
    (db.SetMaxOpenConns n).maxIdle
      = (if 0 < n ∧ n < db.maxIdleConnsLocked then n else db.maxIdle) := by
  obtain ⟨o, i, l, t⟩ := db
  by_cases hn : n < 0
  · have h1 : ¬ 0 < n := by omega
    simp [DB.SetMaxOpenConns, hn, h1]
  · by_cases hc : 0 < n ∧ n < (DB.mk o i l t).maxIdleConnsLocked
    · have hc2 : 0 < n ∧ n < (DB.mk n i l t).maxIdleConnsLocked := hc
      have hi := (SetMaxIdleConns_fields (DB.mk n i l t) n)
      simp only [hc.1, if_true, lt_self_iff_false, and_false, if_false] at hi
      simp only [DB.SetMaxOpenConns, hn, if_false, hc, if_true]
      simp only [gt_iff_lt, hc2.1, hc2.2, decide_True, Bool.and_self, if_true]
      exact hi
    · have hc2 : ¬ (0 < n ∧ n < (DB.mk n i l t).maxIdleConnsLocked) := hc
      simp only [DB.SetMaxOpenConns, hn, if_false, hc, if_true]
      have : (decide (n > 0) && decide ((DB.mk n i l t).maxIdleConnsLocked > n)) = false := by
        simp only [gt_iff_lt, Bool.and_eq_false_imp, decide_eq_true_eq, decide_eq_false_iff_not]
        intro h1 h2
        exact hc2 ⟨h1, h2⟩
      simp [this]

theorem configuredDB_sizes (connType : String) (settings : SqlSettings) (db : DB) :
    (configuredDB connType settings db).maxOpen
      = (if HasPrefix connType replicaLagPrefix = true then
          ((db.SetMaxOpenConns 1).SetMaxIdleConns 1).maxOpen
        else ((db.SetMaxIdleConns settings.MaxIdleConns).SetMaxOpenConns
          settings.MaxOpenConns).maxOpen) ∧
    (configuredDB connType settings db).maxIdle
      = (if HasPrefix connType replicaLagPrefix = true then
          ((db.SetMaxOpenConns 1).SetMaxIdleConns 1).maxIdle
        else ((db.SetMaxIdleConns settings.MaxIdleConns).SetMaxOpenConns
          settings.MaxOpenConns).maxIdle) := by
  by_cases hp : HasPrefix connType replicaLagPrefix = true <;>
    simp [configuredDB, hp, DB.SetConnMaxLifetime, DB.SetConnMaxIdleTime]

theorem configuredDB_replica (connType : String) (settings : SqlSettings) (db : DB)
    (hp : HasPrefix connType replicaLagPrefix = true) :
    (configuredDB connType settings db).maxOpen = 1 ∧
    (configuredDB connType settings db).maxIdle = 1 := by
  obtain ⟨h1, h2⟩ := configuredDB_sizes connType settings db
  obtain ⟨a1, a2⟩ := SetMaxIdleConns_fields (db.SetMaxOpenConns 1) 1
  obtain ⟨b1, _⟩ := SetMaxOpenConns_fields db 1
  rw [h1, h2, if_pos hp, if_pos hp, a1, a2, b1]
  constructor <;> simp

theorem configuredDB_other (connType : String) (settings : SqlSettings) (db : DB)
    (hp : ¬ HasPrefix connType replicaLagPrefix = true) (hfresh : db.maxOpen = 0) :
    (configuredDB connType settings db).maxOpen
      = (if settings.MaxOpenConns < 0 then 0 else settings.MaxOpenConns) ∧
    (configuredDB connType settings db).maxIdle
      = (if 0 < settings.MaxOpenConns ∧ settings.MaxOpenConns < settings.MaxIdleConns then
          settings.MaxOpenConns
        else if 0 < settings.MaxIdleConns then settings.MaxIdleConns
        else -1) := by
  obtain ⟨h1, h2⟩ := configuredDB_sizes connType settings db
  obtain ⟨a1, a2⟩ := SetMaxOpenConns_fields (db.SetMaxIdleConns settings.MaxIdleConns)
    settings.MaxOpenConns
  obtain ⟨b1, b2⟩ := SetMaxIdleConns_fields db settings.MaxIdleConns
  rw [h1, h2, if_neg hp, if_neg hp, a1, a2]
  refine ⟨rfl, ?_⟩
  simp only [DB.maxIdleConnsLocked, b2, hfresh, lt_self_iff_false, false_and, if_false,
    defaultMaxIdleConns]
  by_cases hi : 0 < settings.MaxIdleConns
  · have h0 : settings.MaxIdleConns ≠ 0 := by omega
    have hn : ¬ settings.MaxIdleConns < 0 := by omega
    simp [hi, h0, hn]
  · have hc : ¬ (0 < settings.MaxOpenConns ∧ settings.MaxOpenConns < settings.MaxIdleConns) := by
      omega
    have hc2 : ¬ (0 < settings.MaxOpenConns ∧ settings.MaxOpenConns < 0) := by omega
    simp [hi, hc, hc2]

theorem configuredDB_durations (connType : String) (settings : SqlSettings) (db : DB) :
    (configuredDB connType settings db).maxLifetime
      = (if millisToDuration settings.ConnMaxLifetimeMilliseconds < 0 then 0
        else millisToDuration settings.ConnMaxLifetimeMilliseconds) ∧
    (configuredDB connType settings db).maxIdleTime
      = (if millisToDuration settings.ConnMaxIdleTimeMilliseconds < 0 then 0
        else millisToDuration settings.ConnMaxIdleTimeMilliseconds) := by
  simp [configuredDB, DB.SetConnMaxLifetime, DB.SetConnMaxIdleTime]

/-! ## The claims -/

/-- C1: for `attempts ≥ 1`, when the open step succeeds and each of the
`attempts` pings fails, exactly `attempts` pings are made, no handle is returned
and the returned error is the error of the last ping itself, not a wrapping of it. -/
theorem exhausted_returns_last_ping_error (env : Env) (connType dataSource : String)
    (settings : SqlSettings) (attempts : Int) (db : DB) (ha : 1 ≤ attempts)
    (ho : env.sqlOpen settings.DriverName dataSource = Except.ok db)
    (hf : ∀ i, i < attempts.toNat → (env.ping i).isSome = true) :
    ∃ out e, SetupConnection env connType dataSource settings attempts = some out ∧
      (out.world.pings : Int) = attempts ∧
      (count Event.isPing out.world.trace : Int) = attempts ∧
      out.db = none ∧
      env.ping (attempts.toNat - 1) = some e ∧ out.err = some e := by
  obtain ⟨t, e, ht, he, hrun⟩ := run_failure env connType dataSource settings attempts db ha ho hf
  refine ⟨_, e, hrun, ?_, ?_, rfl, he, rfl⟩
  · simp only; omega
  · have hl := (lastEvents_counts (boundLogger env connType dataSource settings) attempts
      (some e)).1
    simp only [count_append, count_cons, count_nil, ht.pings, hl, Event.isPing]
    simp
    omega

theorem exhausted_returns_last_ping_error_witness :
    ∃ out e, SetupConnection (sampleEnv 3) "primary" "ds" sampleSettings 3 = some out ∧
      (out.world.pings : Int) = 3 ∧
      (count Event.isPing out.world.trace : Int) = 3 ∧
      out.db = none ∧
      (sampleEnv 3).ping ((3 : Int).toNat - 1) = some e ∧ out.err = some e :=
  exhausted_returns_last_ping_error (sampleEnv 3) "primary" "ds" sampleSettings 3 ⟨0, 0, 0, 0⟩
    (by decide) rfl (by decide)

/-- C2: when the open step fails with error `e`, the function returns no handle
and `e` wrapped with the message "failed to open SQL connection", whatever
`attempts` is, and the only call made is the open call: no ping, no sleep, no
log event and no pool setter. -/
theorem open_failure_is_terminal (env : Env) (connType dataSource : String)
    (settings : SqlSettings) (attempts : Int) (e : GoError)
    (ho : env.sqlOpen settings.DriverName dataSource = Except.error e) :
    ∃ out, SetupConnection env connType dataSource settings attempts = some out ∧
      out.db = none ∧
      out.err = some (GoError.wrapped e "failed to open SQL connection") ∧
      out.world.trace = [Event.sqlOpen settings.DriverName dataSource] ∧
      out.world.pings = 0 ∧
      count Event.isPing out.world.trace = 0 ∧
      count Event.isSleep out.world.trace = 0 ∧
      count Event.isLog out.world.trace = 0 ∧
      count Event.isSetter out.world.trace = 0 := by
  refine ⟨_, SetupConnection_open_error env connType dataSource settings attempts e ho,
    rfl, rfl, rfl, rfl, ?_, ?_, ?_, ?_⟩ <;>
  simp [openedWorld, count_cons, count_nil, Event.isPing, Event.isSleep, Event.isLog,
    Event.isSetter]

theorem open_failure_is_terminal_witness :
    ∃ out, SetupConnection brokenEnv "primary" "ds" sampleSettings 3 = some out ∧
      out.db = none ∧
      out.err = some (GoError.wrapped (GoError.raw "unknown driver")
        "failed to open SQL connection") ∧
      out.world.trace = [Event.sqlOpen sampleSettings.DriverName "ds"] ∧
      out.world.pings = 0 ∧
      count Event.isPing out.world.trace = 0 ∧
      count Event.isSleep out.world.trace = 0 ∧
      count Event.isLog out.world.trace = 0 ∧
      count Event.isSetter out.world.trace = 0 :=
  open_failure_is_terminal brokenEnv "primary" "ds" sampleSettings 3
    (GoError.raw "unknown driver") rfl

/-- C3: for `0 ≤ k < attempts`, when the open step succeeds, the first `k`
pings fail and ping `k + 1` succeeds, exactly `k + 1` pings are made, exactly
`k` error-level events are emitted, all of them "Failed to ping DB", the
function sleeps exactly `k` times, each time for two seconds, and it returns a
handle with a nil error. -/
theorem success_after_retries (env : Env) (connType dataSource : String)
    (settings : SqlSettings) (attempts : Int) (k : Nat) (db : DB) (hk : (k : Int) < attempts)
    (ho : env.sqlOpen settings.DriverName dataSource = Except.ok db)
    (hf : ∀ i, i < k → (env.ping i).isSome = true) (hs : env.ping k = none) :
    ∃ out handle, SetupConnection env connType dataSource settings attempts = some out ∧
      out.db = some handle ∧ out.err = none ∧
      out.world.pings = k + 1 ∧
      count Event.isPing out.world.trace = k + 1 ∧
      count Event.isError out.world.trace = k ∧
      count Event.isFailedToPing out.world.trace = k ∧
      count Event.isSleep out.world.trace = k ∧
      count Event.isOddSleep out.world.trace = 0 := by
  obtain ⟨t, ht, hrun⟩ :=
    run_success env connType dataSource settings attempts k db hk ho hf hs
  obtain ⟨l1, _, _, l4, l5, l6, l7, _⟩ :=
    lastEvents_counts (boundLogger env connType dataSource settings) (1 + k) none
  obtain ⟨c1, _, _, c4, c5, c6, c7, _⟩ := configEvents_counts connType settings
  refine ⟨_, _, hrun, rfl, rfl, rfl, ?_, ?_, ?_, ?_, ?_⟩ <;>
  simp [count_append, count_cons, count_nil, ht.pings, ht.errors, ht.failed, ht.sleeps,
    ht.oddSleeps, l1, l4, l5, l6, l7, c1, c4, c5, c6, c7, Event.isPing, Event.isError,
    Event.isFailedToPing, Event.isSleep, Event.isOddSleep]

theorem success_after_retries_witness :
    ∃ out handle, SetupConnection (sampleEnv 2) "primary" "ds" sampleSettings 3 = some out ∧
      out.db = some handle ∧ out.err = none ∧
      out.world.pings = 2 + 1 ∧
      count Event.isPing out.world.trace = 2 + 1 ∧
      count Event.isError out.world.trace = 2 ∧
      count Event.isFailedToPing out.world.trace = 2 ∧
      count Event.isSleep out.world.trace = 2 ∧
      count Event.isOddSleep out.world.trace = 0 :=
  success_after_retries (sampleEnv 2) "primary" "ds" sampleSettings 3 2 ⟨0, 0, 0, 0⟩
    (by decide) rfl (by decide) rfl


/-- C4: for every role that starts with "replica-lag" (the role "replica-lag"
itself included), every settings value and every run in which the open step
succeeds and the loop is left towards the pool configuration, the function
returns a handle with a nil error whose max open connections is 1 and whose max
idle connections is 1, whatever `MaxOpenConns` and `MaxIdleConns` request; its
setter calls are those for 1 open, 1 idle, the lifetime and the idle time. -/
theorem replica_lag_pool_is_one (env : Env) (rest dataSource : String)
    (settings : SqlSettings) (attempts : Int) (db : DB)
    (ho : env.sqlOpen settings.DriverName dataSource = Except.ok db)
    (hp : LoopPasses env attempts) :
    ∃ out handle,
      SetupConnection env ("replica-lag" ++ rest) dataSource settings attempts = some out ∧
      out.err = none ∧ out.db = some handle ∧
      handle.maxOpen = 1 ∧ handle.maxIdle = 1 ∧
      ∃ pre, count Event.isSetter pre = 0 ∧
        out.world.trace = pre ++
          [Event.setMaxOpenConns 1,
           Event.setMaxIdleConns 1,
           Event.setConnMaxLifetime (millisToDuration settings.ConnMaxLifetimeMilliseconds),
           Event.setConnMaxIdleTime (millisToDuration settings.ConnMaxIdleTimeMilliseconds)] := by
  have hpre : HasPrefix ("replica-lag" ++ rest) replicaLagPrefix = true :=
    (HasPrefix_iff _ _).mpr ⟨rest, rfl⟩
  obtain ⟨pre, n, hset, hrun⟩ :=
    run_configured env ("replica-lag" ++ rest) dataSource settings attempts db ho hp
  obtain ⟨h1, h2⟩ := configuredDB_replica ("replica-lag" ++ rest) settings db hpre
  refine ⟨_, _, hrun, rfl, rfl, h1, h2, pre, hset, ?_⟩
  simp [configEvents, hpre]

theorem replica_lag_pool_is_one_witness :
    (sampleEnv 2).sqlOpen sampleSettings.DriverName "ds" = Except.ok ⟨0, 0, 0, 0⟩ ∧
    LoopPasses (sampleEnv 2) 3 ∧
    sampleSettings.MaxOpenConns = 50 ∧ sampleSettings.MaxIdleConns = 50 ∧
    ∃ out handle,
      SetupConnection (sampleEnv 2) ("replica-lag" ++ "-primary") "ds" sampleSettings 3
        = some out ∧
      out.err = none ∧ out.db = some handle ∧
      handle.maxOpen = 1 ∧ handle.maxIdle = 1 ∧
      ∃ pre, count Event.isSetter pre = 0 ∧
        out.world.trace = pre ++
          [Event.setMaxOpenConns 1,
           Event.setMaxIdleConns 1,
           Event.setConnMaxLifetime
             (millisToDuration sampleSettings.ConnMaxLifetimeMilliseconds),
           Event.setConnMaxIdleTime
             (millisToDuration sampleSettings.ConnMaxIdleTimeMilliseconds)] :=
  have hp : LoopPasses (sampleEnv 2) 3 := Or.inr ⟨2, by decide, by decide, rfl⟩
  ⟨rfl, hp, rfl, rfl,
    replica_lag_pool_is_one (sampleEnv 2) "-primary" "ds" sampleSettings 3 ⟨0, 0, 0, 0⟩ rfl hp⟩

/-- C5 fails as stated: with the role "primary", 50 idle and 10 open
connections requested, a successful run returns a handle whose max idle
connections is 10, not 50; with -1 idle and -5 open requested it returns a
handle whose max open connections is 0, not -5. -/
theorem idle_limit_lowered_to_open_limit :
    HasPrefix "primary" replicaLagPrefix = false ∧
    (∃ out handle,
      SetupConnection (sampleEnv 0) "primary" "ds" unevenSettings 1 = some out ∧
      out.err = none ∧ out.db = some handle ∧
      unevenSettings.MaxIdleConns = 50 ∧ unevenSettings.MaxOpenConns = 10 ∧
      handle.maxOpen = 10 ∧ handle.maxIdle = 10 ∧
      handle.maxIdle ≠ unevenSettings.MaxIdleConns) ∧
    (∃ out handle,
      SetupConnection (sampleEnv 0) "primary" "ds" negativeSettings 1 = some out ∧
      out.err = none ∧ out.db = some handle ∧
      negativeSettings.MaxIdleConns = -1 ∧ negativeSettings.MaxOpenConns = -5 ∧
      handle.maxOpen = 0 ∧ handle.maxIdle = -1 ∧
      handle.maxOpen ≠ negativeSettings.MaxOpenConns) := by
  refine ⟨by decide, ⟨_, _, rfl, rfl, rfl, ?_⟩, ⟨_, _, rfl, rfl, rfl, ?_⟩⟩ <;> decide

/-- C5, amended: for every role that does not start with "replica-lag", every
settings value and every run in which the open step succeeds with a fresh
handle and the loop is left towards the pool configuration, the function calls
`SetMaxIdleConns MaxIdleConns` and then `SetMaxOpenConns MaxOpenConns` and
returns a handle with a nil error.  Its max open connections is `MaxOpenConns`,
or 0 when that is negative.  Its max idle connections is `MaxOpenConns` when
`0 < MaxOpenConns < MaxIdleConns`, else `MaxIdleConns` when that is positive,
else -1.  Both equal the settings exactly when `0 < MaxIdleConns ≤ MaxOpenConns`. -/
theorem other_roles_pool_from_settings (env : Env) (connType dataSource : String)
    (settings : SqlSettings) (attempts : Int) (db : DB)
    (hrole : ¬ ∃ rest : String, connType = "replica-lag" ++ rest)
    (ho : env.sqlOpen settings.DriverName dataSource = Except.ok db)
    (hfresh : db.maxOpen = 0)
    (hp : LoopPasses env attempts) :
    ∃ out handle, SetupConnection env connType dataSource settings attempts = some out ∧
      out.err = none ∧ out.db = some handle ∧
      handle.maxOpen = (if settings.MaxOpenConns < 0 then 0 else settings.MaxOpenConns) ∧
      handle.maxIdle
        = (if 0 < settings.MaxOpenConns ∧ settings.MaxOpenConns < settings.MaxIdleConns then
            settings.MaxOpenConns
          else if 0 < settings.MaxIdleConns then settings.MaxIdleConns
          else -1) ∧
      (0 < settings.MaxIdleConns → settings.MaxIdleConns ≤ settings.MaxOpenConns →
        handle.maxOpen = settings.MaxOpenConns ∧ handle.maxIdle = settings.MaxIdleConns) ∧
      ∃ pre, count Event.isSetter pre = 0 ∧
        out.world.trace = pre ++
          [Event.setMaxIdleConns settings.MaxIdleConns,
           Event.setMaxOpenConns settings.MaxOpenConns,
           Event.setConnMaxLifetime (millisToDuration settings.ConnMaxLifetimeMilliseconds),
           Event.setConnMaxIdleTime (millisToDuration settings.ConnMaxIdleTimeMilliseconds)] := by
  have hpre : ¬ HasPrefix connType replicaLagPrefix = true :=
    fun h => hrole ((HasPrefix_iff _ _).mp h)
  obtain ⟨pre, n, hset, hrun⟩ :=
    run_configured env connType dataSource settings attempts db ho hp
  obtain ⟨h1, h2⟩ := configuredDB_other connType settings db hpre hfresh
  refine ⟨_, _, hrun, rfl, rfl, h1, h2, ?_, pre, hset, ?_⟩
  · intro hi hle
    rw [h1, h2]
    have hc : ¬ (0 < settings.MaxOpenConns ∧ settings.MaxOpenConns < settings.MaxIdleConns) := by
      omega
    have hn : ¬ settings.MaxOpenConns < 0 := by omega
    simp [hc, hn, hi]
  · simp [configEvents, hpre]

theorem other_roles_pool_from_settings_witness :
    (¬ ∃ rest : String, "primary" = "replica-lag" ++ rest) ∧
    (sampleEnv 0).sqlOpen sampleSettings.DriverName "ds" = Except.ok ⟨0, 0, 0, 0⟩ ∧
    LoopPasses (sampleEnv 0) 1 ∧
    ∃ out handle, SetupConnection (sampleEnv 0) "primary" "ds" sampleSettings 1 = some out ∧
      out.err = none ∧ out.db = some handle ∧
      handle.maxOpen
        = (if sampleSettings.MaxOpenConns < 0 then 0 else sampleSettings.MaxOpenConns) ∧
      handle.maxIdle
        = (if 0 < sampleSettings.MaxOpenConns ∧
              sampleSettings.MaxOpenConns < sampleSettings.MaxIdleConns then
            sampleSettings.MaxOpenConns
          else if 0 < sampleSettings.MaxIdleConns then sampleSettings.MaxIdleConns
          else -1) ∧
      (0 < sampleSettings.MaxIdleConns →
        sampleSettings.MaxIdleConns ≤ sampleSettings.MaxOpenConns →
        handle.maxOpen = sampleSettings.MaxOpenConns ∧
        handle.maxIdle = sampleSettings.MaxIdleConns) ∧
      ∃ pre, count Event.isSetter pre = 0 ∧
        out.world.trace = pre ++
          [Event.setMaxIdleConns sampleSettings.MaxIdleConns,
           Event.setMaxOpenConns sampleSettings.MaxOpenConns,
           Event.setConnMaxLifetime
             (millisToDuration sampleSettings.ConnMaxLifetimeMilliseconds),
           Event.setConnMaxIdleTime
             (millisToDuration sampleSettings.ConnMaxIdleTimeMilliseconds)] :=
  have h : ¬ ∃ rest : String, "primary" = "replica-lag" ++ rest :=
    fun hx => absurd ((HasPrefix_iff "primary" "replica-lag").mpr hx) (by decide)
  have hp : LoopPasses (sampleEnv 0) 1 := Or.inr ⟨0, by decide, by decide, rfl⟩
  ⟨h, rfl, hp,
    other_roles_pool_from_settings (sampleEnv 0) "primary" "ds" sampleSettings 1 ⟨0, 0, 0, 0⟩
      h rfl rfl hp⟩

/-- C6 fails as stated: with `ConnMaxLifetimeMilliseconds = 9223372036855` (a
legal Go `int`) the product wraps around to -9223372036854551616 and the handle
of a successful run holds a max lifetime of 0; with
`ConnMaxLifetimeMilliseconds = -1` the handle holds 0 as well, not -1000000. -/
theorem lifetime_not_the_product :
    (∃ out handle,
      SetupConnection (sampleEnv 0) "primary" "ds" longLivedSettings 1 = some out ∧
      out.err = none ∧ out.db = some handle ∧
      minInt64 ≤ longLivedSettings.ConnMaxLifetimeMilliseconds ∧
      longLivedSettings.ConnMaxLifetimeMilliseconds ≤ maxInt64 ∧
      millisToDuration longLivedSettings.ConnMaxLifetimeMilliseconds
        = -9223372036854551616 ∧
      handle.maxLifetime = 0 ∧
      handle.maxLifetime ≠ longLivedSettings.ConnMaxLifetimeMilliseconds * 1000000) ∧
    (∃ out handle,
      SetupConnection (sampleEnv 0) "primary" "ds" negativeSettings 1 = some out ∧
      out.err = none ∧ out.db = some handle ∧
      negativeSettings.ConnMaxLifetimeMilliseconds = -1 ∧
      handle.maxLifetime = 0 ∧
      handle.maxLifetime ≠ negativeSettings.ConnMaxLifetimeMilliseconds * 1000000) := by
  refine ⟨⟨_, _, rfl, rfl, rfl, ?_⟩, ⟨_, _, rfl, rfl, rfl, ?_⟩⟩ <;> decide

/-- C6, amended: for every role, all settings whose two durations are Go `int`
values and every run in which the open step succeeds and the loop is left
towards the pool configuration, the function returns a handle with a nil error
whose max lifetime and max idle time in nanoseconds are the settings values
times 1,000,000 reduced to the signed 64-bit range, with 0 in place of a
negative result.  Each is the exact product when its settings value lies
between 0 and 9223372036854, and 0 when it lies between -9223372036854 and -1. -/
theorem durations_from_settings (env : Env) (connType dataSource : String)
    (settings : SqlSettings) (attempts : Int) (db : DB)
    (hl : minInt64 ≤ settings.ConnMaxLifetimeMilliseconds ∧
      settings.ConnMaxLifetimeMilliseconds ≤ maxInt64)
    (hi : minInt64 ≤ settings.ConnMaxIdleTimeMilliseconds ∧
      settings.ConnMaxIdleTimeMilliseconds ≤ maxInt64)
    (ho : env.sqlOpen settings.DriverName dataSource = Except.ok db)
    (hp : LoopPasses env attempts) :
    ∃ out handle, SetupConnection env connType dataSource settings attempts = some out ∧
      out.err = none ∧ out.db = some handle ∧
      handle.maxLifetime
        = (if wrapInt64 (settings.ConnMaxLifetimeMilliseconds * 1000000) < 0 then 0
          else wrapInt64 (settings.ConnMaxLifetimeMilliseconds * 1000000)) ∧
      handle.maxIdleTime
        = (if wrapInt64 (settings.ConnMaxIdleTimeMilliseconds * 1000000) < 0 then 0
          else wrapInt64 (settings.ConnMaxIdleTimeMilliseconds * 1000000)) ∧
      (0 ≤ settings.ConnMaxLifetimeMilliseconds →
        settings.ConnMaxLifetimeMilliseconds ≤ 9223372036854 →
        handle.maxLifetime = settings.ConnMaxLifetimeMilliseconds * 1000000) ∧
      (-9223372036854 ≤ settings.ConnMaxLifetimeMilliseconds →
        settings.ConnMaxLifetimeMilliseconds < 0 → handle.maxLifetime = 0) ∧
      (0 ≤ settings.ConnMaxIdleTimeMilliseconds →
        settings.ConnMaxIdleTimeMilliseconds ≤ 9223372036854 →
        handle.maxIdleTime = settings.ConnMaxIdleTimeMilliseconds * 1000000) ∧
      (-9223372036854 ≤ settings.ConnMaxIdleTimeMilliseconds →
        settings.ConnMaxIdleTimeMilliseconds < 0 → handle.maxIdleTime = 0) := by
  obtain ⟨pre, n, _, hrun⟩ :=
    run_configured env connType dataSource settings attempts db ho hp
  obtain ⟨h1, h2⟩ := configuredDB_durations connType settings db
  rw [millisToDuration_of_int _ hl.1 hl.2] at h1
  rw [millisToDuration_of_int _ hi.1 hi.2] at h2
  refine ⟨_, _, hrun, rfl, rfl, h1, h2, ?_, ?_, ?_, ?_⟩
  · intro ha hb
    have he := millisToDuration_exact settings.ConnMaxLifetimeMilliseconds (by omega) hb
    rw [millisToDuration_of_int _ hl.1 hl.2] at he
    have hn : ¬ (settings.ConnMaxLifetimeMilliseconds * 1000000 < 0) := by omega
    rw [h1, he]
    exact if_neg hn
  · intro ha hb
    have he := millisToDuration_exact settings.ConnMaxLifetimeMilliseconds ha (by omega)
    rw [millisToDuration_of_int _ hl.1 hl.2] at he
    have hn : settings.ConnMaxLifetimeMilliseconds * 1000000 < 0 := by omega
    rw [h1, he]
    exact if_pos hn
  · intro ha hb
    have he := millisToDuration_exact settings.ConnMaxIdleTimeMilliseconds (by omega) hb
    rw [millisToDuration_of_int _ hi.1 hi.2] at he
    have hn : ¬ (settings.ConnMaxIdleTimeMilliseconds * 1000000 < 0) := by omega
    rw [h2, he]
    exact if_neg hn
  · intro ha hb
    have he := millisToDuration_exact settings.ConnMaxIdleTimeMilliseconds ha (by omega)
    rw [millisToDuration_of_int _ hi.1 hi.2] at he
    have hn : settings.ConnMaxIdleTimeMilliseconds * 1000000 < 0 := by omega
    rw [h2, he]
    exact if_pos hn

theorem durations_from_settings_witness :
    (minInt64 ≤ sampleSettings.ConnMaxLifetimeMilliseconds ∧
      sampleSettings.ConnMaxLifetimeMilliseconds ≤ maxInt64) ∧
    (minInt64 ≤ sampleSettings.ConnMaxIdleTimeMilliseconds ∧
      sampleSettings.ConnMaxIdleTimeMilliseconds ≤ maxInt64) ∧
    (sampleEnv 0).sqlOpen sampleSettings.DriverName "ds" = Except.ok ⟨0, 0, 0, 0⟩ ∧
    LoopPasses (sampleEnv 0) 1 ∧
    ∃ out handle, SetupConnection (sampleEnv 0) "replica-lag" "ds" sampleSettings 1 = some out ∧
      out.err = none ∧ out.db = some handle ∧
      handle.maxLifetime
        = (if wrapInt64 (sampleSettings.ConnMaxLifetimeMilliseconds * 1000000) < 0 then 0
          else wrapInt64 (sampleSettings.ConnMaxLifetimeMilliseconds * 1000000)) ∧
      handle.maxIdleTime
        = (if wrapInt64 (sampleSettings.ConnMaxIdleTimeMilliseconds * 1000000) < 0 then 0
          else wrapInt64 (sampleSettings.ConnMaxIdleTimeMilliseconds * 1000000)) ∧
      (0 ≤ sampleSettings.ConnMaxLifetimeMilliseconds →
        sampleSettings.ConnMaxLifetimeMilliseconds ≤ 9223372036854 →
        handle.maxLifetime = sampleSettings.ConnMaxLifetimeMilliseconds * 1000000) ∧
      (-9223372036854 ≤ sampleSettings.ConnMaxLifetimeMilliseconds →
        sampleSettings.ConnMaxLifetimeMilliseconds < 0 → handle.maxLifetime = 0) ∧
      (0 ≤ sampleSettings.ConnMaxIdleTimeMilliseconds →
        sampleSettings.ConnMaxIdleTimeMilliseconds ≤ 9223372036854 →
        handle.maxIdleTime = sampleSettings.ConnMaxIdleTimeMilliseconds * 1000000) ∧
      (-9223372036854 ≤ sampleSettings.ConnMaxIdleTimeMilliseconds →
        sampleSettings.ConnMaxIdleTimeMilliseconds < 0 → handle.maxIdleTime = 0) :=
  have hp : LoopPasses (sampleEnv 0) 1 := Or.inr ⟨0, by decide, by decide, rfl⟩
  ⟨by decide, by decide, rfl, hp,
    durations_from_settings (sampleEnv 0) "replica-lag" "ds" sampleSettings 1 ⟨0, 0, 0, 0⟩
      (by decide) (by decide) rfl hp⟩

/-- C7: for `attempts ≥ 1`, when the open step succeeds and every ping fails,
the function returns the error of the last ping after exactly `attempts - 1`
sleeps, `attempts - 1` error-level events and `attempts - 1` "Pinging SQL"
events, and the failed last ping is the last event of the run: nothing is
logged and no sleep is made after it.  For `attempts = 1` there is thus no
sleep, no "Pinging SQL" event and no error event at all. -/
theorem no_retry_after_last_failure (env : Env) (connType dataSource : String)
    (settings : SqlSettings) (attempts : Int) (db : DB) (ha : 1 ≤ attempts)
    (ho : env.sqlOpen settings.DriverName dataSource = Except.ok db)
    (hf : ∀ i, i < attempts.toNat → (env.ping i).isSome = true) :
    ∃ out e pre, SetupConnection env connType dataSource settings attempts = some out ∧
      out.db = none ∧ out.err = some e ∧
      out.world.trace = pre ++ [Event.ping DBPingTimeout (some e)] ∧
      count Event.isSleep out.world.trace = attempts.toNat - 1 ∧
      count Event.isOddSleep out.world.trace = 0 ∧
      count Event.isError out.world.trace = attempts.toNat - 1 ∧
      count Event.isFailedToPing out.world.trace = attempts.toNat - 1 ∧
      count Event.isInfo out.world.trace = attempts.toNat - 1 ∧
      count Event.isPingingSQL out.world.trace = attempts.toNat - 1 ∧
      (attempts = 1 →
        count Event.isSleep out.world.trace = 0 ∧
        count Event.isInfo out.world.trace = 0 ∧
        count Event.isError out.world.trace = 0) := by
  obtain ⟨t, e, ht, _, hrun⟩ :=
    run_failure env connType dataSource settings attempts db ha ho hf
  obtain ⟨_, l2, l3, l4, l5, l6, l7, _⟩ :=
    lastEvents_counts (boundLogger env connType dataSource settings) attempts (some e)
  have hsl : count Event.isSleep ([Event.sqlOpen settings.DriverName dataSource] ++ t ++
      lastEvents (boundLogger env connType dataSource settings) attempts (some e))
      = attempts.toNat - 1 := by
    simp [count_append, count_cons, count_nil, ht.sleeps, l6, Event.isSleep]
  have hod : count Event.isOddSleep ([Event.sqlOpen settings.DriverName dataSource] ++ t ++
      lastEvents (boundLogger env connType dataSource settings) attempts (some e)) = 0 := by
    simp [count_append, count_cons, count_nil, ht.oddSleeps, l7, Event.isOddSleep]
  have her : count Event.isError ([Event.sqlOpen settings.DriverName dataSource] ++ t ++
      lastEvents (boundLogger env connType dataSource settings) attempts (some e))
      = attempts.toNat - 1 := by
    simp [count_append, count_cons, count_nil, ht.errors, l4, Event.isError]
  have hfp : count Event.isFailedToPing ([Event.sqlOpen settings.DriverName dataSource] ++ t ++
      lastEvents (boundLogger env connType dataSource settings) attempts (some e))
      = attempts.toNat - 1 := by
    simp [count_append, count_cons, count_nil, ht.failed, l5, Event.isFailedToPing]
  have hin : count Event.isInfo ([Event.sqlOpen settings.DriverName dataSource] ++ t ++
      lastEvents (boundLogger env connType dataSource settings) attempts (some e))
      = attempts.toNat - 1 := by
    simp only [count_append, count_cons, count_nil, ht.infos, l2, Event.isInfo]
    by_cases h1 : 1 < attempts
    · simp [h1]; omega
    · have : attempts = 1 := by omega
      subst this
      simp
  have hps : count Event.isPingingSQL ([Event.sqlOpen settings.DriverName dataSource] ++ t ++
      lastEvents (boundLogger env connType dataSource settings) attempts (some e))
      = attempts.toNat - 1 := by
    simp only [count_append, count_cons, count_nil, ht.pinging, l3, Event.isPingingSQL]
    by_cases h1 : 1 < attempts
    · simp [h1]; omega
    · have : attempts = 1 := by omega
      subst this
      simp
  refine ⟨_, e, [Event.sqlOpen settings.DriverName dataSource] ++ t ++
      announceEvents (boundLogger env connType dataSource settings) attempts,
    hrun, rfl, rfl, ?_, hsl, hod, her, hfp, hin, hps, ?_⟩
  · simp [lastEvents]
  · intro h1
    subst h1
    exact ⟨by simpa using hsl, by simpa using hin, by simpa using her⟩

theorem no_retry_after_last_failure_witness :
    ∃ out e pre, SetupConnection (sampleEnv 1) "primary" "ds" sampleSettings 1 = some out ∧
      out.db = none ∧ out.err = some e ∧
      out.world.trace = pre ++ [Event.ping DBPingTimeout (some e)] ∧
      count Event.isSleep out.world.trace = (1 : Int).toNat - 1 ∧
      count Event.isOddSleep out.world.trace = 0 ∧
      count Event.isError out.world.trace = (1 : Int).toNat - 1 ∧
      count Event.isFailedToPing out.world.trace = (1 : Int).toNat - 1 ∧
      count Event.isInfo out.world.trace = (1 : Int).toNat - 1 ∧
      count Event.isPingingSQL out.world.trace = (1 : Int).toNat - 1 ∧
      ((1 : Int) = 1 →
        count Event.isSleep out.world.trace = 0 ∧
        count Event.isInfo out.world.trace = 0 ∧
        count Event.isError out.world.trace = 0) :=
  no_retry_after_last_failure (sampleEnv 1) "primary" "ds" sampleSettings 1 ⟨0, 0, 0, 0⟩
    (by decide) rfl (by decide)

/-- C8 fails as stated: with `attempts = 3`, the open step succeeding, pings 1
and 2 failing and ping 3 succeeding, the run emits two info-level "Pinging SQL"
events, not one: they are the fifth and ninth events of the run, each
immediately before a ping (the sixth and tenth events, pings 2 and 3). -/
theorem pinging_logged_twice :
    ∃ out, SetupConnection (sampleEnv 2) "primary" "ds" sampleSettings 3 = some out ∧
      (sampleEnv 2).sqlOpen sampleSettings.DriverName "ds" = Except.ok ⟨0, 0, 0, 0⟩ ∧
      (sampleEnv 2).ping 0 = some (GoError.raw "connection refused") ∧
      (sampleEnv 2).ping 1 = some (GoError.raw "connection refused") ∧
      (sampleEnv 2).ping 2 = none ∧
      out.err = none ∧
      count Event.isPingingSQL out.world.trace = 2 ∧
      count Event.isPingingSQL out.world.trace ≠ 1 ∧
      out.world.trace.map Event.isPingingSQL
        = [false, false, false, false, true, false, false, false, true, false,
           false, false, false, false] ∧
      out.world.trace.map Event.isPing
        = [false, true, false, false, false, true, false, false, false, true,
           false, false, false, false] := by
  refine ⟨_, rfl, rfl, rfl, rfl, rfl, rfl, ?_⟩
  decide

/-- C8, amended: with `attempts = 3`, the open step succeeding, pings 1 and 2
failing and ping 3 succeeding, the run emits exactly two info-level events,
both "Pinging SQL": one with attempt number 2 immediately before ping 2 and one
with attempt number 3 immediately before ping 3; none precedes ping 1.  The
run is: open, ping 1, error log, sleep, "Pinging SQL" 2, ping 2, error log,
sleep, "Pinging SQL" 3, ping 3, then the pool configuration, which logs
nothing. -/
theorem two_pinging_events (env : Env) (connType dataSource : String)
    (settings : SqlSettings) (db : DB) (e1 e2 : GoError)
    (ho : env.sqlOpen settings.DriverName dataSource = Except.ok db)
    (h1 : env.ping 0 = some e1) (h2 : env.ping 1 = some e2) (h3 : env.ping 2 = none) :
    ∃ out cfg, SetupConnection env connType dataSource settings 3 = some out ∧
      out.err = none ∧
      out.world.trace =
        [Event.sqlOpen settings.DriverName dataSource,
         Event.ping DBPingTimeout (some e1),
         Event.log Level.error "Failed to ping DB"
           [mlogString "database" connType,
            mlogString "dataSource" (env.SanitizeDataSource settings.DriverName dataSource).1,
            mlogFloatSeconds "retrying in seconds" DBConnRetrySleep, mlogErr e1],
         Event.sleep DBConnRetrySleep,
         Event.log Level.info "Pinging SQL"
           [mlogString "database" connType,
            mlogString "dataSource" (env.SanitizeDataSource settings.DriverName dataSource).1,
            mlogInt "attempt" 2],
         Event.ping DBPingTimeout (some e2),
         Event.log Level.error "Failed to ping DB"
           [mlogString "database" connType,
            mlogString "dataSource" (env.SanitizeDataSource settings.DriverName dataSource).1,
            mlogFloatSeconds "retrying in seconds" DBConnRetrySleep, mlogErr e2],
         Event.sleep DBConnRetrySleep,
         Event.log Level.info "Pinging SQL"
           [mlogString "database" connType,
            mlogString "dataSource" (env.SanitizeDataSource settings.DriverName dataSource).1,
            mlogInt "attempt" 3],
         Event.ping DBPingTimeout none] ++ cfg ∧
      count Event.isLog cfg = 0 ∧
      count Event.isInfo out.world.trace = 2 ∧
      count Event.isPingingSQL out.world.trace = 2 := by
  obtain ⟨_, c2, c3, _, _, _, _, c8⟩ := configEvents_counts connType settings
  have hrun : SetupConnection env connType dataSource settings 3
      = some ⟨some (configuredDB connType settings db), none,
          { trace := ((((openedWorld dataSource settings).after
                (retryEvents (boundLogger env connType dataSource settings) 1 e1)).after
                (retryEvents (boundLogger env connType dataSource settings) (1 + 1) e2)).after
                (lastEvents (boundLogger env connType dataSource settings) (1 + 1 + 1)
                  none)).trace ++ configEvents connType settings,
            pings := 3 }⟩ := by
    rw [SetupConnection_opened env connType dataSource settings 3 db ho]
    have hfuel : (3 : Int).toNat = 2 + 1 := rfl
    rw [hfuel,
      pingLoop_retry env _ 3 2 1 _ e1 (by decide) (by simpa [openedWorld] using h1),
      pingLoop_retry env _ 3 1 (1 + 1) _ e2 (by decide)
        (by simpa [openedWorld, World.after] using h2),
      pingLoop_success env _ 3 0 (1 + 1 + 1) _ (by decide)
        (by simpa [openedWorld, World.after] using h3)]
    rfl
  refine ⟨_, configEvents connType settings, hrun, rfl, ?_, c8, ?_, ?_⟩
  · simp [World.after, openedWorld, retryEvents, lastEvents, announceEvents, boundLogger]
  · simp [World.after, openedWorld, retryEvents, lastEvents, announceEvents, count_append,
      count_cons, count_nil, c2, Event.isInfo]
  · simp [World.after, openedWorld, retryEvents, lastEvents, announceEvents, count_append,
      count_cons, count_nil, c3, Event.isPingingSQL]

theorem two_pinging_events_witness :
    ∃ out cfg,
      SetupConnection (sampleEnv 2) "replica-lag-primary" "ds" sampleSettings 3 = some out ∧
      out.err = none ∧
      out.world.trace =
        [Event.sqlOpen sampleSettings.DriverName "ds",
         Event.ping DBPingTimeout (some (GoError.raw "connection refused")),
         Event.log Level.error "Failed to ping DB"
           [mlogString "database" "replica-lag-primary",
            mlogString "dataSource"
              ((sampleEnv 2).SanitizeDataSource sampleSettings.DriverName "ds").1,
            mlogFloatSeconds "retrying in seconds" DBConnRetrySleep,
            mlogErr (GoError.raw "connection refused")],
         Event.sleep DBConnRetrySleep,
         Event.log Level.info "Pinging SQL"
           [mlogString "database" "replica-lag-primary",
            mlogString "dataSource"
              ((sampleEnv 2).SanitizeDataSource sampleSettings.DriverName "ds").1,
            mlogInt "attempt" 2],
         Event.ping DBPingTimeout (some (GoError.raw "connection refused")),
         Event.log Level.error "Failed to ping DB"
           [mlogString "database" "replica-lag-primary",
            mlogString "dataSource"
              ((sampleEnv 2).SanitizeDataSource sampleSettings.DriverName "ds").1,
            mlogFloatSeconds "retrying in seconds" DBConnRetrySleep,
            mlogErr (GoError.raw "connection refused")],
         Event.sleep DBConnRetrySleep,
         Event.log Level.info "Pinging SQL"
           [mlogString "database" "replica-lag-primary",
            mlogString "dataSource"
              ((sampleEnv 2).SanitizeDataSource sampleSettings.DriverName "ds").1,
            mlogInt "attempt" 3],
         Event.ping DBPingTimeout none] ++ cfg ∧
      count Event.isLog cfg = 0 ∧
      count Event.isInfo out.world.trace = 2 ∧
      count Event.isPingingSQL out.world.trace = 2 :=
  two_pinging_events (sampleEnv 2) "replica-lag-primary" "ds" sampleSettings ⟨0, 0, 0, 0⟩
    (GoError.raw "connection refused") (GoError.raw "connection refused") rfl rfl rfl rfl

/-- C9: for `attempts ≥ 1` every run returns; a run that returns an error
returns no handle and calls none of the four pool setters; a run that returns a
handle returns no error, and its trace is a part without setter calls, then a
successful ping, then exactly four calls, one of each of the four setters. -/
theorem setters_only_after_successful_ping (env : Env) (connType dataSource : String)
    (settings : SqlSettings) (attempts : Int) (ha : 1 ≤ attempts) :
    ∃ out, SetupConnection env connType dataSource settings attempts = some out ∧
      (out.err ≠ none → out.db = none ∧ count Event.isSetter out.world.trace = 0) ∧
      (out.db ≠ none → out.err = none ∧
        ∃ pre cfg, out.world.trace = pre ++ [Event.ping DBPingTimeout none] ++ cfg ∧
          count Event.isSetter pre = 0 ∧
          cfg.length = 4 ∧
          count Event.isSetMaxOpen cfg = 1 ∧
          count Event.isSetMaxIdle cfg = 1 ∧
          count Event.isSetLifetime cfg = 1 ∧
          count Event.isSetIdleTime cfg = 1) := by
  obtain ⟨out, hrun, hshape⟩ := run_shape env connType dataSource settings attempts
  refine ⟨out, hrun, ?_, ?_⟩
  · intro herr
    rcases hshape with ⟨e, hdb, _, hset⟩ | ⟨_, pre, _, _, he, _⟩
    · exact ⟨hdb, hset⟩
    · exact absurd he herr
  · intro hdb
    rcases hshape with ⟨e, hnone, _, _⟩ | ⟨_, pre, _, _, he, htr, hpre, hping⟩
    · exact absurd hnone hdb
    · obtain ⟨pre0, hpre0⟩ := hping ha
      obtain ⟨c0, _, c1, c2, c3, c4⟩ := configEvents_setters connType settings
      refine ⟨he, pre0, configEvents connType settings, ?_, ?_, c0, c1, c2, c3, c4⟩
      · rw [htr, hpre0]
      · rw [hpre0, count_append] at hpre
        omega

theorem setters_only_after_successful_ping_witness :
    ∃ out, SetupConnection (sampleEnv 2) "primary" "ds" sampleSettings 3 = some out ∧
      (out.err ≠ none → out.db = none ∧ count Event.isSetter out.world.trace = 0) ∧
      (out.db ≠ none → out.err = none ∧
        ∃ pre cfg, out.world.trace = pre ++ [Event.ping DBPingTimeout none] ++ cfg ∧
          count Event.isSetter pre = 0 ∧
          cfg.length = 4 ∧
          count Event.isSetMaxOpen cfg = 1 ∧
          count Event.isSetMaxIdle cfg = 1 ∧
          count Event.isSetLifetime cfg = 1 ∧
          count Event.isSetIdleTime cfg = 1) :=
  setters_only_after_successful_ping (sampleEnv 2) "primary" "ds" sampleSettings 3 (by decide)

end SqlUtils
